import Mathlib

/-!
Verification of `pkg/video/openai_sora_client.go` (huobao-drama).

The Go client submits video-generation requests (`GenerateVideo`) and polls
task status (`GetTaskStatus`), normalizing the provider's JSON response into
a `VideoResult`. The HTTP transport and JSON decoder are external
collaborators: an HTTP exchange is modelled by its status code, raw body and
the (possible) decoded `OpenAISoraResponse` that `json.Unmarshal` would
produce from the body.
-/

namespace HuobaoDrama

/-- Nested `video` object of the provider response (`Video struct { URL string }`). -/
structure SoraVideoField where
  URL : String
deriving Repr, DecidableEq

/-- Nested `error` object of the provider response (`Error struct { Message, Type string }`). -/
structure SoraErrorField where
  Message : String
  ErrType : String
deriving Repr, DecidableEq

/-- Wire-format mirror of the provider's JSON reply (`OpenAISoraResponse`). -/
structure OpenAISoraResponse where
  ID : String
  Object : String
  Model : String
  Status : String
  Progress : Int
  CreatedAt : Int
  CompletedAt : Int
  Size : String
  Seconds : String
  Quality : String
  VideoURL : String
  Video : SoraVideoField
  Error : SoraErrorField
deriving Repr, DecidableEq

/-- Modelled from the spec: the stable internal result type `VideoResult`
(declared elsewhere in the repository, outside the provided source): task
identifier, verbatim status string, completion flag, resolved video URL, and
an optional error message. Go zero values are empty strings / `false`. -/
structure VideoResult where
  TaskID : String
  Status : String
  Completed : Bool
  VideoURL : String
  Error : String
deriving Repr, DecidableEq

/-- Modelled from the spec: the per-call options bag `VideoOptions`
(declared elsewhere in the repository, outside the provided source):
duration in seconds, resolution label, model override. -/
structure VideoOptions where
  Duration : Int
  Resolution : String
  Model : String
deriving Repr, DecidableEq

/-- Modelled from the spec: `VideoOption` is an option-mutator function
applied to the options bag. -/
def VideoOption : Type := VideoOptions → VideoOptions

/-- Static client configuration (`OpenAISoraClient`); the HTTP transport is
an external collaborator and is not part of the model. -/
structure OpenAISoraClient where
  BaseURL : String
  APIKey : String
  Model : String
deriving Repr, DecidableEq

/-- One HTTP exchange as seen by the client after `io.ReadAll` succeeds:
status code, raw body, and the result of `json.Unmarshal` on the body
(`none` when the body is not valid JSON for the response shape). -/
structure HTTPResponse where
  StatusCode : Nat
  Body : String
  Parsed : Option OpenAISoraResponse
deriving Repr, DecidableEq

/-- The structured content of the errors the client can return after the
body has been read: the non-2xx path (`API error (status %d): %s`, carrying
status code and raw body), the `json.Unmarshal` failure path
(`parse response: ...`), and the provider semantic failure path
(`openai error: %s`). -/
inductive SoraCallError where
  | apiError (statusCode : Nat) (body : String)
  | parseError (body : String)
  | openaiError (message : String)
deriving Repr, DecidableEq

/-- The base options bag built in `GenerateVideo`: `&VideoOptions{Duration: 4}`,
all other fields at their Go zero value. -/
def defaultVideoOptions : VideoOptions :=
  { Duration := 4, Resolution := "", Model := "" }

/-- `for _, opt := range opts { opt(options) }` over the base default. -/
def applyVideoOptions (opts : List VideoOption) : VideoOptions :=
  opts.foldl (fun options opt => opt options) defaultVideoOptions

/-- The multipart form fields written by `GenerateVideo`, in write order:
`model` (override when non-empty, else the client default) and `prompt`
always; `input_reference` iff the image URL is non-empty; `seconds`
(`fmt.Sprintf` of the duration) iff the duration is positive; `size` iff a
resolution is given. -/
def GenerateVideoForm (c : OpenAISoraClient) (imageURL prompt : String)
    (opts : List VideoOption) : List (String × String) :=
  let options := applyVideoOptions opts
  let model := if options.Model ≠ "" then options.Model else c.Model
  [("model", model), ("prompt", prompt)]
    ++ (if imageURL ≠ "" then [("input_reference", imageURL)] else [])
    ++ (if options.Duration > 0 then [("seconds", toString options.Duration)] else [])
    ++ (if options.Resolution ≠ "" then [("size", options.Resolution)] else [])

/-- The response-handling tail of `GenerateVideo`: reject any status outside
{200, 201} with the status code and raw body before parsing; reject a body
that does not unmarshal; reject a parsed response with a non-empty
`error.message`; otherwise normalize into a `VideoResult` (flat `video_url`
preferred over nested `video.url`). -/
def GenerateVideoResult (resp : HTTPResponse) : Except SoraCallError VideoResult :=
  if resp.StatusCode ≠ 200 ∧ resp.StatusCode ≠ 201 then
    .error (.apiError resp.StatusCode resp.Body)
  else
    match resp.Parsed with
    | none => .error (.parseError resp.Body)
    | some result =>
      if result.Error.Message ≠ "" then
        .error (.openaiError result.Error.Message)
      else
        .ok { TaskID := result.ID
              Status := result.Status
              Completed := result.Status == "completed"
              VideoURL :=
                if result.VideoURL ≠ "" then result.VideoURL
                else if result.Video.URL ≠ "" then result.Video.URL
                else ""
              Error := "" }

/-- The response-handling tail of `GetTaskStatus`: no status-code check;
reject a body that does not unmarshal; otherwise normalize into a
`VideoResult`, carrying a non-empty `error.message` as `VideoResult.Error`
instead of failing the call. -/
def GetTaskStatusResult (resp : HTTPResponse) : Except SoraCallError VideoResult :=
  match resp.Parsed with
  | none => .error (.parseError resp.Body)
  | some result =>
      .ok { TaskID := result.ID
            Status := result.Status
            Completed := result.Status == "completed"
            VideoURL :=
              if result.VideoURL ≠ "" then result.VideoURL
              else if result.Video.URL ≠ "" then result.Video.URL
              else ""
            Error := if result.Error.Message ≠ "" then result.Error.Message else "" }

/-- Characterization of a successful `GenerateVideo` response handling: the
body parsed, the provider reported no error, and the result is the
normalization of the parsed response. -/
theorem generateVideoResult_ok (resp : HTTPResponse) (v : VideoResult)
    (h : GenerateVideoResult resp = .ok v) :
    ∃ r, resp.Parsed = some r ∧ r.Error.Message = "" ∧
      v = { TaskID := r.ID
            Status := r.Status
            Completed := r.Status == "completed"
            VideoURL :=
              if r.VideoURL ≠ "" then r.VideoURL
              else if r.Video.URL ≠ "" then r.Video.URL
              else ""
            Error := "" } := by
  unfold GenerateVideoResult at h
  split at h
  · exact absurd h (by simp)
  · split at h
    · exact absurd h (by simp)
    · rename_i r heq
      split at h
      · exact absurd h (by simp)
      · rename_i hmsg
        refine ⟨r, heq, by simpa using hmsg, ?_⟩
        simpa using h.symm

/-- Characterization of `GetTaskStatus` response handling on a parsed body. -/
theorem getTaskStatusResult_some (resp : HTTPResponse) (r : OpenAISoraResponse)
    (hp : resp.Parsed = some r) :
    GetTaskStatusResult resp =
      .ok { TaskID := r.ID
            Status := r.Status
            Completed := r.Status == "completed"
            VideoURL :=
              if r.VideoURL ≠ "" then r.VideoURL
              else if r.Video.URL ≠ "" then r.Video.URL
              else ""
            Error := if r.Error.Message ≠ "" then r.Error.Message else "" } := by
  unfold GetTaskStatusResult
  rw [hp]

/-- Sample provider response with both video-location fields populated. -/
def sampleResponse : OpenAISoraResponse :=
  { ID := "t1", Object := "video", Model := "sora-2", Status := "completed",
    Progress := 100, CreatedAt := 1, CompletedAt := 2, Size := "720x1280",
    Seconds := "4", Quality := "standard",
    VideoURL := "https://cdn/flat.mp4",
    Video := { URL := "https://cdn/nested.mp4" },
    Error := { Message := "", ErrType := "" } }

/-- Sample HTTP exchange delivering `sampleResponse`. -/
def sampleHTTP : HTTPResponse :=
  { StatusCode := 200, Body := "json-body", Parsed := some sampleResponse }

/-- Normalization of `sampleResponse`: the flat field wins. -/
def sampleResult : VideoResult :=
  { TaskID := "t1", Status := "completed", Completed := true,
    VideoURL := "https://cdn/flat.mp4", Error := "" }

/-- Sample provider response carrying an error sub-record. -/
def errResponse : OpenAISoraResponse :=
  { ID := "t2", Object := "video", Model := "sora-2", Status := "failed",
    Progress := 0, CreatedAt := 1, CompletedAt := 0, Size := "",
    Seconds := "", Quality := "",
    VideoURL := "",
    Video := { URL := "" },
    Error := { Message := "boom", ErrType := "invalid_request" } }

/-- Sample HTTP exchange delivering `errResponse` with a 200 status. -/
def errHTTP : HTTPResponse :=
  { StatusCode := 200, Body := "json-err-body", Parsed := some errResponse }

/-- Sample HTTP exchange with a server error status and a non-JSON body. -/
def badHTTP : HTTPResponse :=
  { StatusCode := 500, Body := "not json", Parsed := none }

/-- Sample client configuration. -/
def sampleClient : OpenAISoraClient :=
  { BaseURL := "https://api.example", APIKey := "k", Model := "sora-2" }

/-- C1: whenever either operation returns a normalized result for a parsed
provider response, its VideoURL follows flat-field precedence: the flat
`video_url` if non-empty, else the nested `video.url` if non-empty, else
empty. -/
theorem C1_videoURL_flat_precedence (resp : HTTPResponse) (r : OpenAISoraResponse)
    (v : VideoResult) (hp : resp.Parsed = some r)
    (h : GenerateVideoResult resp = .ok v ∨ GetTaskStatusResult resp = .ok v) :
    v.VideoURL = (if r.VideoURL ≠ "" then r.VideoURL
      else if r.Video.URL ≠ "" then r.Video.URL else "") := by
  rcases h with h | h
  · obtain ⟨r2, hp2, _, hv⟩ := generateVideoResult_ok resp v h
    rw [hp] at hp2
    injection hp2 with hr
    subst hr
    rw [hv]
  · rw [getTaskStatusResult_some resp r hp] at h
    injection h with hv
    rw [← hv]

theorem C1_witness :
    sampleHTTP.Parsed = some sampleResponse ∧
    GetTaskStatusResult sampleHTTP = .ok sampleResult ∧
    sampleResult.VideoURL = (if sampleResponse.VideoURL ≠ "" then sampleResponse.VideoURL
      else if sampleResponse.Video.URL ≠ "" then sampleResponse.Video.URL else "") :=
  ⟨rfl, rfl,
    C1_videoURL_flat_precedence sampleHTTP sampleResponse sampleResult rfl
      (Or.inr rfl)⟩

/-- C2: whenever either operation returns a normalized result for a parsed
provider response, its Completed flag is true exactly when the status string
equals the exact string "completed". -/
theorem C2_completed_strict (resp : HTTPResponse) (r : OpenAISoraResponse)
    (v : VideoResult) (hp : resp.Parsed = some r)
    (h : GenerateVideoResult resp = .ok v ∨ GetTaskStatusResult resp = .ok v) :
    v.Completed = true ↔ r.Status = "completed" := by
  rcases h with h | h
  · obtain ⟨r2, hp2, _, hv⟩ := generateVideoResult_ok resp v h
    rw [hp] at hp2
    injection hp2 with hr
    subst hr
    rw [hv]
    simp
  · rw [getTaskStatusResult_some resp r hp] at h
    injection h with hv
    rw [← hv]
    simp

theorem C2_witness :
    sampleHTTP.Parsed = some sampleResponse ∧
    GetTaskStatusResult sampleHTTP = .ok sampleResult ∧
    (sampleResult.Completed = true ↔ sampleResponse.Status = "completed") :=
  ⟨rfl, rfl,
    C2_completed_strict sampleHTTP sampleResponse sampleResult rfl
      (Or.inr rfl)⟩

/-- C3: the form built by GenerateVideo carries no `seconds` field when the
resolved duration is ≤ 0, and exactly one `seconds` field holding the
decimal rendering of the duration when it is > 0. -/
theorem C3_seconds_field (c : OpenAISoraClient) (imageURL prompt : String)
    (opts : List VideoOption) :
    ((applyVideoOptions opts).Duration ≤ 0 →
      (GenerateVideoForm c imageURL prompt opts).filter (fun p => p.1 == "seconds") = []) ∧
    (0 < (applyVideoOptions opts).Duration →
      (GenerateVideoForm c imageURL prompt opts).filter (fun p => p.1 == "seconds")
        = [("seconds", toString (applyVideoOptions opts).Duration)]) := by
  simp only [GenerateVideoForm]
  constructor <;> intro hd
  · split_ifs <;> simp_all <;> omega
  · split_ifs <;> simp_all

theorem C3_witness :
    (0 < (applyVideoOptions []).Duration ∧
      (GenerateVideoForm sampleClient "img" "a cat" []).filter (fun p => p.1 == "seconds")
        = [("seconds", toString (applyVideoOptions []).Duration)]) ∧
    ((applyVideoOptions [fun o => { o with Duration := -2 }]).Duration ≤ 0 ∧
      (GenerateVideoForm sampleClient "img" "a cat"
          [fun o => { o with Duration := -2 }]).filter (fun p => p.1 == "seconds") = []) :=
  ⟨⟨by decide, (C3_seconds_field sampleClient "img" "a cat" []).2 (by decide)⟩,
   ⟨by decide,
    (C3_seconds_field sampleClient "img" "a cat" [fun o => { o with Duration := -2 }]).1
      (by decide)⟩⟩

/-- C4: a submission whose HTTP status is outside {200, 201} fails with an
error carrying the status code and the raw body, whatever the body parses
to (including not parsing at all). -/
theorem C4_non2xx_fails_before_parse (resp : HTTPResponse)
    (h1 : resp.StatusCode ≠ 200) (h2 : resp.StatusCode ≠ 201) :
    GenerateVideoResult resp = .error (.apiError resp.StatusCode resp.Body) := by
  unfold GenerateVideoResult
  rw [if_pos ⟨h1, h2⟩]

theorem C4_witness :
    badHTTP.StatusCode ≠ 200 ∧ badHTTP.StatusCode ≠ 201 ∧
    GenerateVideoResult badHTTP = .error (.apiError 500 "not json") :=
  ⟨by decide, by decide, C4_non2xx_fails_before_parse badHTTP (by decide) (by decide)⟩

/-- C5: a status lookup whose body parses with a non-empty error.message
succeeds at the call level and surfaces that message as VideoResult.Error. -/
theorem C5_poll_surfaces_provider_error (resp : HTTPResponse) (r : OpenAISoraResponse)
    (hp : resp.Parsed = some r) (hm : r.Error.Message ≠ "") :
    ∃ v, GetTaskStatusResult resp = .ok v ∧ v.Error = r.Error.Message := by
  refine ⟨_, getTaskStatusResult_some resp r hp, ?_⟩
  simp [hm]

theorem C5_witness :
    errHTTP.Parsed = some errResponse ∧ errResponse.Error.Message ≠ "" ∧
    ∃ v, GetTaskStatusResult errHTTP = .ok v ∧ v.Error = errResponse.Error.Message :=
  ⟨rfl, by decide, C5_poll_surfaces_provider_error errHTTP errResponse rfl (by decide)⟩

/-- C6: a submission whose response passes the status check and parses with
a non-empty error.message aborts with the provider's message and returns no
result. -/
theorem C6_submit_provider_error_fatal (resp : HTTPResponse) (r : OpenAISoraResponse)
    (hs : resp.StatusCode = 200 ∨ resp.StatusCode = 201)
    (hp : resp.Parsed = some r) (hm : r.Error.Message ≠ "") :
    GenerateVideoResult resp = .error (.openaiError r.Error.Message) := by
  rcases hs with hs | hs <;> simp [GenerateVideoResult, hs, hp, hm]

theorem C6_witness :
    (errHTTP.StatusCode = 200 ∨ errHTTP.StatusCode = 201) ∧
    errHTTP.Parsed = some errResponse ∧ errResponse.Error.Message ≠ "" ∧
    GenerateVideoResult errHTTP = .error (.openaiError "boom") :=
  ⟨Or.inl rfl, rfl, by decide,
    C6_submit_provider_error_fatal errHTTP errResponse (Or.inl rfl) rfl (by decide)⟩

/-- C7: GetTaskStatus never consults the HTTP status code; an unparsable
body is a fatal parse error, and any parsed body yields a normalized result
(even alongside a non-2xx status). -/
theorem C7_poll_ignores_status_code (resp : HTTPResponse) (s : Nat)
    (r : OpenAISoraResponse) :
    (GetTaskStatusResult { resp with StatusCode := s } = GetTaskStatusResult resp) ∧
    (resp.Parsed = none → GetTaskStatusResult resp = .error (.parseError resp.Body)) ∧
    (resp.Parsed = some r → (GetTaskStatusResult resp).isOk = true) := by
  refine ⟨rfl, fun h => by simp [GetTaskStatusResult, h], fun hp => ?_⟩
  rw [getTaskStatusResult_some resp r hp]
  rfl

theorem C7_witness :
    (GetTaskStatusResult { errHTTP with StatusCode := 503 } = GetTaskStatusResult errHTTP) ∧
    (GetTaskStatusResult errHTTP).isOk = true ∧
    GetTaskStatusResult badHTTP = .error (.parseError badHTTP.Body) :=
  ⟨(C7_poll_ignores_status_code errHTTP 503 errResponse).1,
   (C7_poll_ignores_status_code errHTTP 503 errResponse).2.2 rfl,
   (C7_poll_ignores_status_code badHTTP 0 errResponse).2.1 rfl⟩

/-- C8: the form contains `input_reference` exactly when the image URL is
non-empty (with that URL as its value), and always contains the resolved
`model` and the `prompt`. -/
theorem C8_input_reference_iff_image (c : OpenAISoraClient) (imageURL prompt : String)
    (opts : List VideoOption) :
    ((GenerateVideoForm c imageURL prompt opts).filter (fun p => p.1 == "input_reference")
        = if imageURL ≠ "" then [("input_reference", imageURL)] else []) ∧
    ("model", if (applyVideoOptions opts).Model ≠ "" then (applyVideoOptions opts).Model
        else c.Model) ∈ GenerateVideoForm c imageURL prompt opts ∧
    ("prompt", prompt) ∈ GenerateVideoForm c imageURL prompt opts := by
  simp only [GenerateVideoForm]
  refine ⟨?_, by simp, by simp⟩
  split_ifs <;> simp_all

/-- C9: with zero option mutators the duration defaults to 4 so the form
carries `seconds` = "4"; the `model` field is the client default unless the
resolved options carry a non-empty override. -/
theorem C9_defaults (c : OpenAISoraClient) (imageURL prompt : String)
    (opts : List VideoOption) :
    ("seconds", "4") ∈ GenerateVideoForm c imageURL prompt [] ∧
    (GenerateVideoForm c imageURL prompt opts).filter (fun p => p.1 == "model")
      = [("model", if (applyVideoOptions opts).Model ≠ "" then (applyVideoOptions opts).Model
          else c.Model)] := by
  constructor
  · have h4 : toString (4 : Int) = "4" := rfl
    simp [GenerateVideoForm, applyVideoOptions, defaultVideoOptions, h4]
  · simp only [GenerateVideoForm]
    split_ifs <;> simp_all

/-- C10: in GetTaskStatus a populated error sub-record does not suppress
normalization: TaskID, Status, Completed and VideoURL are still derived
from the same parsed response by the ordinary rules, alongside Error. -/
theorem C10_poll_error_keeps_normalization (resp : HTTPResponse)
    (r : OpenAISoraResponse) (hp : resp.Parsed = some r)
    (hm : r.Error.Message ≠ "") :
    GetTaskStatusResult resp =
      .ok { TaskID := r.ID
            Status := r.Status
            Completed := r.Status == "completed"
            VideoURL :=
              if r.VideoURL ≠ "" then r.VideoURL
              else if r.Video.URL ≠ "" then r.Video.URL
              else ""
            Error := r.Error.Message } := by
  rw [getTaskStatusResult_some resp r hp]
  simp [hm]

theorem C10_witness :
    errHTTP.Parsed = some errResponse ∧ errResponse.Error.Message ≠ "" ∧
    GetTaskStatusResult errHTTP =
      .ok { TaskID := "t2", Status := "failed", Completed := false,
            VideoURL := "", Error := "boom" } :=
  ⟨rfl, by decide,
    C10_poll_error_keeps_normalization errHTTP errResponse rfl (by decide)⟩

end HuobaoDrama
